import Mathlib

/-!
Shallow embedding of the AI podcast generator pipeline (src/main.py).

The program is a single HTTP endpoint turning a topic into a script plus
synthesized audio.  External services are modelled as oracles:
an `OpenAIResult` is the outcome of the one ChatCompletion call, and a
`World` packages the outcome of the ElevenLabs voice-list fetch and of the
text-to-speech POST.  Every function that performs network calls in the
source returns its value paired with a count of the calls it issued, so
that claims of the form "no network call is performed" are statable.
Bytes are modelled as natural numbers reduced modulo 256.
-/

namespace Podcast

/-- Response model of the endpoint (class `PodcastResponse` in the source):
`script`, `audio_base64` and `tts_error` are always present, with
empty-string semantics for "no audio" and "no error". -/
structure PodcastResponse where
  script : String
  audio_base64 : String
  tts_error : String
  deriving Repr, DecidableEq

/-- A voice entry of the ElevenLabs voice list: `{name, voice_id}`. -/
structure Voice where
  name : String
  voice_id : String
  deriving Repr, DecidableEq

/-- Outcome of the OpenAI ChatCompletion call in `generate_with_openai`:
either the first completion content, a `RateLimitError`, or another
`OpenAIError` carrying its message `str(e)`. -/
inductive OpenAIResult where
  | success (content : String)
  | rateLimited
  | serviceError (msg : String)
  deriving Repr, DecidableEq

/-- Outcome of the `requests.get` on `/v1/voices` (after `raise_for_status`):
either the parsed voice list, or an exception whose text is `msg`. -/
inductive FetchResult where
  | ok (voices : List Voice)
  | httpError (msg : String)
  deriving Repr, DecidableEq

/-- Outcome of the `requests.post` to the text-to-speech endpoint (after
`raise_for_status`): either the response body bytes, or an exception whose
text is `msg`. -/
inductive PostResult where
  | ok (body : List Nat)
  | httpError (msg : String)
  deriving Repr, DecidableEq

/-- The external ElevenLabs service as seen by one request: the outcome of
the voice-list fetch, and the outcome of the synthesis POST as a function
of the resolved voice id and the text sent. -/
structure World where
  voicesFetch : FetchResult
  ttsPost : String → String → PostResult

/-- Errors raised inside `resolve_voice_id`: the final `ValueError` when no
voice name matches (carrying the input and the list of available names),
or a transport/HTTP exception from the list fetch. -/
inductive ResolveError where
  | voiceNotFound (input : String) (available : List String)
  | transport (msg : String)
  deriving Repr, DecidableEq

/-- Python `repr` of a list of (plain) strings, as interpolated by the
f-string `f"... Available: {available}"` in the source. -/
def pyListRepr (names : List String) : String :=
  "[" ++ String.intercalate ", " (names.map (fun n => "\x27" ++ n ++ "\x27")) ++ "]"

/-- Rendering `str(e)` for the exceptions of `resolve_voice_id`: the `ValueError`
message is built by the source's f-string; a transport error keeps its own
message. -/
def ResolveError.toMessage : ResolveError → String
  | .voiceNotFound input available =>
      "Voice \x27" ++ input ++ "\x27 not found. Available: " ++ pyListRepr available
  | .transport msg => msg

/-- The source's UUID-shape test:
`len(voice_name_or_uuid) == 36 and voice_name_or_uuid.count('-') == 4`. -/
def looksLikeUuid (s : String) : Bool :=
  s.length == 36 && (s.toList.filter (fun c => c = '-')).length == 4

/-- Python `str.lower()` (ASCII range), applied characterwise. -/
def pyLower (s : String) : String :=
  String.mk (s.data.map Char.toLower)

/-- Python `str.strip()`: drop leading and trailing whitespace. -/
def pyStrip (s : String) : String :=
  String.mk
    (((s.data.dropWhile Char.isWhitespace).reverse.dropWhile
        Char.isWhitespace).reverse)

/-- The case-insensitive name match of the source's loop:
`v.get("name", "").lower() == voice_name_or_uuid.lower()`. -/
def nameMatches (input : String) (v : Voice) : Bool :=
  pyLower v.name == pyLower input

/-- Function `resolve_voice_id` (src/main.py lines 114-137).  Returns the resolution
outcome paired with the number of voice-list fetches performed (0 on the
UUID fast path, 1 otherwise). -/
def resolve_voice_id (voice_name_or_uuid : String) (w : World) :
    Except ResolveError String × Nat :=
  if looksLikeUuid voice_name_or_uuid then
    (.ok voice_name_or_uuid, 0)
  else
    match w.voicesFetch with
    | .httpError msg => (.error (.transport msg), 1)
    | .ok voices =>
      match voices.find? (nameMatches voice_name_or_uuid) with
      | some v => (.ok v.voice_id, 1)
      | none =>
        (.error (.voiceNotFound voice_name_or_uuid (voices.map Voice.name)), 1)

/-- Function `generate_template` (src/main.py lines 98-109): the static fallback
outline used when OpenAI rate-limits. -/
def generate_template (topic : String) : String :=
  "[Intro]\nWelcome to our deep dive on “" ++ topic ++ ".” In today’s episode...\n\n" ++
  "[Section 1: Definition]\nDefine " ++ topic ++ " clearly...\n\n" ++
  "[Section 2: Current Challenges]\nDiscuss challenges...\n\n" ++
  "[Section 3: Real-world Examples]\nShare examples...\n\n" ++
  "[Closing]\nThank you for listening to " ++ topic ++ "!"

/-- The five f-string chunks concatenated by `generate_template`, one per
section of the outline. -/
def templateSections (topic : String) : List String :=
  ["[Intro]\nWelcome to our deep dive on “" ++ topic ++ ".” In today’s episode...\n\n",
   "[Section 1: Definition]\nDefine " ++ topic ++ " clearly...\n\n",
   "[Section 2: Current Challenges]\nDiscuss challenges...\n\n",
   "[Section 3: Real-world Examples]\nShare examples...\n\n",
   "[Closing]\nThank you for listening to " ++ topic ++ "!"]

/-- Substring containment, used to state that a topic occurs in a section. -/
def containsStr (hay needle : String) : Prop :=
  needle.toList <:+: hay.toList

instance (hay needle : String) : Decidable (containsStr hay needle) :=
  inferInstanceAs (Decidable (needle.toList <:+: hay.toList))

/-- The exceptions `generate_with_openai` can raise into the orchestrator:
`RateLimitError`, or another `OpenAIError` with text `str(e)`. -/
inductive ScriptError where
  | rateLimited
  | serviceError (msg : String)
  deriving Repr, DecidableEq

/-- The fixed system-role instruction of `generate_with_openai`. -/
def system_prompt : String :=
  "You are a professional podcast scriptwriter. " ++
  "Write a thorough 500–800 word podcast episode script on the given topic. " ++
  "Include an introduction, three detailed sections with examples and data, " ++
  "smooth transitions, and a closing summary with a call-to-action."

/-- The user-role message of `generate_with_openai`: `f"Topic: \"{topic}\""`. -/
def user_prompt (topic : String) : String :=
  "Topic: \"" ++ topic ++ "\""

/-- Function `generate_with_openai` (src/main.py lines 68-95), with the service call
abstracted by its outcome: on success the first completion content is
returned stripped of surrounding whitespace (`.strip()` modelled as
`pyStrip`); a `RateLimitError` or another `OpenAIError` propagates to
the caller. -/
def generate_with_openai (_topic : String) (oai : OpenAIResult) :
    Except ScriptError String :=
  match oai with
  | .success content => .ok (pyStrip content)
  | .rateLimited => .error .rateLimited
  | .serviceError msg => .error (.serviceError msg)

/-- Function `synthesize_tts` (src/main.py lines 140-172).  Returns the
`(audio bytes, error message)` pair of the source, paired with the
`(voice-list fetches, synthesis POSTs)` call counts.  A voice-resolution
failure short-circuits with `"Voice lookup error: <str(e)>"` and no POST;
a POST exception yields its text with empty bytes; success yields the
response body with an empty error. -/
def synthesize_tts (text voice_input : String) (w : World) :
    (List Nat × String) × (Nat × Nat) :=
  match resolve_voice_id voice_input w with
  | (.error e, fetches) =>
      (([], "Voice lookup error: " ++ e.toMessage), (fetches, 0))
  | (.ok voice_id, fetches) =>
      match w.ttsPost voice_id text with
      | .ok body => ((body, ""), (fetches, 1))
      | .httpError msg => (([], msg), (fetches, 1))

/-- The character of the standard base64 alphabet at index `n < 64`. -/
def b64CharOf (n : Nat) : Char :=
  if n < 26 then Char.ofNat (65 + n)
  else if n < 52 then Char.ofNat (97 + (n - 26))
  else if n < 62 then Char.ofNat (48 + (n - 52))
  else if n = 62 then Char.ofNat 43
  else Char.ofNat 47

/-- Index of a character in the standard base64 alphabet, `none` for a
character outside it. -/
def b64CharVal (c : Char) : Option Nat :=
  if 65 ≤ c.toNat ∧ c.toNat ≤ 90 then some (c.toNat - 65)
  else if 97 ≤ c.toNat ∧ c.toNat ≤ 122 then some (c.toNat - 97 + 26)
  else if 48 ≤ c.toNat ∧ c.toNat ≤ 57 then some (c.toNat - 48 + 52)
  else if c.toNat = 43 then some 62
  else if c.toNat = 47 then some 63
  else none

/-- Standard base64 encoding of a byte sequence (each byte reduced modulo
256), as `base64.b64encode` computes it: three bytes per four characters,
with `=` padding for a trailing group of one or two bytes. -/
def b64EncodeList : List Nat → List Char
  | [] => []
  | [a] =>
    let x := a % 256
    [b64CharOf (x / 4), b64CharOf (x % 4 * 16), '=', '=']
  | [a, b] =>
    let x := a % 256
    let y := b % 256
    [b64CharOf (x / 4), b64CharOf (x % 4 * 16 + y / 16), b64CharOf (y % 16 * 4), '=']
  | a :: b :: c :: rest =>
    let x := a % 256
    let y := b % 256
    let z := c % 256
    b64CharOf (x / 4) :: b64CharOf (x % 4 * 16 + y / 16) ::
      b64CharOf (y % 16 * 4 + z / 64) :: b64CharOf (z % 64) :: b64EncodeList rest

/-- Standard base64 decoding, inverse of `b64EncodeList`: four characters
per three bytes, with `=` padding accepted only at the very end. -/
def b64DecodeList : List Char → Option (List Nat)
  | [] => some []
  | c1 :: c2 :: c3 :: c4 :: rest =>
    (match b64CharVal c1, b64CharVal c2 with
     | some v1, some v2 =>
       if c3 = '=' then
         if c4 = '=' ∧ rest = [] then some [v1 * 4 + v2 / 16] else none
       else
         match b64CharVal c3 with
         | some v3 =>
           if c4 = '=' then
             if rest = [] then some [v1 * 4 + v2 / 16, v2 % 16 * 16 + v3 / 4]
             else none
           else
             match b64CharVal c4, b64DecodeList rest with
             | some v4, some tail =>
               some ((v1 * 4 + v2 / 16) :: (v2 % 16 * 16 + v3 / 4) ::
                     (v3 % 4 * 64 + v4) :: tail)
             | _, _ => none
         | none => none
     | _, _ => none)
  | _ => none

/-- Encoding `base64.b64encode(audio_bytes).decode("utf-8")` as a string. -/
def b64Encode (bs : List Nat) : String :=
  String.mk (b64EncodeList bs)

/-- Base64 decoding of a string back to bytes. -/
def b64Decode (s : String) : Option (List Nat) :=
  b64DecodeList s.toList

/-- The encoding step of the orchestrator (src/main.py line 201):
`base64.b64encode(audio_bytes).decode("utf-8") if audio_bytes else ""`. -/
def encodeAudio (audio_bytes : List Nat) : String :=
  if audio_bytes = [] then "" else b64Encode audio_bytes

/-- The fatal outcome of the orchestrator: `HTTPException(status_code,
detail)`. -/
structure HTTPError where
  status_code : Nat
  detail : String
  deriving Repr, DecidableEq

/-- Network activity of one `generate_podcast` invocation: voice-list
fetches, synthesis POSTs, and whether `synthesize_tts` was invoked at
all. -/
structure CallLog where
  voiceListFetches : Nat
  ttsPosts : Nat
  synthCalled : Bool
  deriving Repr, DecidableEq

/-- Lines 196-208 of `generate_podcast`: synthesize, apply the
`"Unknown TTS failure"` catch-all when both bytes and error are empty,
encode the audio, assemble the response. -/
def generate_podcast_rest (script voice_id : String) (w : World) :
    Except HTTPError PodcastResponse × CallLog :=
  match synthesize_tts script voice_id w with
  | ((audio_bytes, tts_error0), (fetches, posts)) =>
    let tts_error :=
      if audio_bytes = [] ∧ tts_error0 = "" then "Unknown TTS failure" else tts_error0
    let audio_b64 := encodeAudio audio_bytes
    (.ok ⟨script, audio_b64, tts_error⟩, ⟨fetches, posts, true⟩)

/-- Endpoint `generate_podcast` (src/main.py lines 178-208): generate the script
(substituting `generate_template` on `RateLimitError`, aborting with a 500
`HTTPException` on another `OpenAIError`), then synthesize, guard, encode
and respond. -/
def generate_podcast (topic voice_id : String) (oai : OpenAIResult) (w : World) :
    Except HTTPError PodcastResponse × CallLog :=
  match generate_with_openai topic oai with
  | .error (.serviceError msg) =>
      (.error ⟨500, "OpenAI error: " ++ msg⟩, ⟨0, 0, false⟩)
  | .error .rateLimited =>
      generate_podcast_rest (generate_template topic) voice_id w
  | .ok script =>
      generate_podcast_rest script voice_id w

/-! ## Helper lemmas -/

lemma append_ne_empty_of_left_ne (s t : String) (h : s ≠ "") : s ++ t ≠ "" := by
  intro hc
  apply h
  have hd := congrArg String.data hc
  rw [String.data_append] at hd
  have hs : s.data = [] := (List.append_eq_nil.mp hd).1
  obtain ⟨l⟩ := s
  simp only at hs
  subst hs
  rfl

lemma append_ne_empty_of_right_ne (s t : String) (h : t ≠ "") : s ++ t ≠ "" := by
  intro hc
  apply h
  have hd := congrArg String.data hc
  rw [String.data_append] at hd
  have ht : t.data = [] := (List.append_eq_nil.mp hd).2
  obtain ⟨l⟩ := t
  simp only at ht
  subst ht
  rfl

lemma find?_eq_get_of_first {α : Type} (p : α → Bool) (l : List α) (i : Nat)
    (hi : i < l.length) (hp : p (l.get ⟨i, hi⟩) = true)
    (hfirst : ∀ j (hj : j < i), p (l.get ⟨j, Nat.lt_trans hj hi⟩) = false) :
    l.find? p = some (l.get ⟨i, hi⟩) := by
  induction l generalizing i with
  | nil => exact absurd hi (Nat.not_lt_zero i)
  | cons a l ih =>
    cases i with
    | zero =>
      exact List.find?_cons_of_pos _ hp
    | succ i =>
      have ha : p a = false := hfirst 0 (Nat.succ_pos i)
      rw [List.find?_cons_of_neg _ (by simp [ha])]
      exact ih i (Nat.lt_of_succ_lt_succ hi) hp
        (fun j hj => hfirst (j + 1) (Nat.succ_lt_succ hj))

lemma b64EncodeList_ne_nil (bs : List Nat) (h : bs ≠ []) :
    b64EncodeList bs ≠ [] := by
  match bs with
  | [] => exact absurd rfl h
  | [a] => simp [b64EncodeList]
  | [a, b] => simp [b64EncodeList]
  | a :: b :: c :: rest => simp [b64EncodeList]

lemma b64Encode_ne_empty (bs : List Nat) (h : bs ≠ []) : b64Encode bs ≠ "" := by
  intro hc
  apply b64EncodeList_ne_nil bs h
  have hd := congrArg String.data hc
  simpa [b64Encode] using hd

lemma synthesize_tts_shape (text vi : String) (w : World) :
    (synthesize_tts text vi w).1.2 = "" ∨ (synthesize_tts text vi w).1.1 = [] := by
  rcases hres : resolve_voice_id vi w with ⟨res, n⟩
  cases res with
  | error e => simp [synthesize_tts, hres]
  | ok vid =>
    cases hp : w.ttsPost vid text with
    | ok body => simp [synthesize_tts, hres, hp]
    | httpError m => simp [synthesize_tts, hres, hp]

lemma generate_podcast_rest_ok (script voice_id : String) (w : World)
    (resp : PodcastResponse) (log : CallLog)
    (h : generate_podcast_rest script voice_id w = (.ok resp, log)) :
    (resp.audio_base64 ≠ "" → resp.tts_error = "") ∧
    (resp.tts_error ≠ "" → resp.audio_base64 = "") ∧
    (resp.audio_base64 = "" → resp.tts_error ≠ "") ∧
    resp.script = script ∧
    ((synthesize_tts script voice_id w).1 = ([], "") →
      resp.tts_error = "Unknown TTS failure") := by
  have hshape := synthesize_tts_shape script voice_id w
  rcases hsyn : synthesize_tts script voice_id w with ⟨⟨bytes, err⟩, f, p⟩
  rw [hsyn] at hshape
  simp only at hshape
  simp only [generate_podcast_rest, hsyn, Prod.mk.injEq, Except.ok.injEq] at h
  obtain ⟨hresp, -⟩ := h
  subst hresp
  by_cases hb : bytes = []
  · subst hb
    by_cases he : err = ""
    · subst he
      refine ⟨?_, ?_, ?_, rfl, ?_⟩ <;> simp [encodeAudio]
    · refine ⟨?_, ?_, ?_, rfl, ?_⟩ <;> simp [encodeAudio, he]
  · have he : err = "" := hshape.resolve_right (by simpa using hb)
    subst he
    refine ⟨?_, ?_, ?_, rfl, ?_⟩ <;>
      simp [encodeAudio, hb, b64Encode_ne_empty bytes hb]

/-! ## Claims -/

/-- C4, counterexample: for the topic `"q"`, it is not the case that every
one of the five sections of the fallback template contains the topic: the
Current Challenges and Real-world Examples sections are fixed text with no
interpolation. -/
theorem C4_counterexample :
    ¬ ∀ s ∈ templateSections "q", containsStr s "q" := by
  decide

/-- C4 (amended): `generate_template` is a pure function of the topic; its
output is exactly the concatenation of the five fixed sections
(Intro / Definition / Current Challenges / Real-world Examples / Closing),
the topic is interpolated into the Intro, Definition and Closing sections,
and the Current Challenges and Real-world Examples sections are fixed text
independent of the topic. -/
theorem C4_template_structure (topic : String) :
    generate_template topic = String.join (templateSections topic) ∧
    (templateSections topic).length = 5 ∧
    containsStr ((templateSections topic).getD 0 "") topic ∧
    containsStr ((templateSections topic).getD 1 "") topic ∧
    containsStr ((templateSections topic).getD 4 "") topic ∧
    (templateSections topic).getD 2 "" =
      "[Section 2: Current Challenges]\nDiscuss challenges...\n\n" ∧
    (templateSections topic).getD 3 "" =
      "[Section 3: Real-world Examples]\nShare examples...\n\n" := by
  refine ⟨?_, rfl, ?_, ?_, ?_, rfl, rfl⟩
  · apply String.ext
    simp only [generate_template, templateSections, String.join_eq,
      List.map_cons, List.map_nil, List.flatten_cons, List.flatten_nil,
      String.data_append, List.append_assoc, List.append_nil]
  · exact ⟨"[Intro]\nWelcome to our deep dive on “".toList,
      ".” In today’s episode...\n\n".toList, rfl⟩
  · exact ⟨"[Section 1: Definition]\nDefine ".toList, " clearly...\n\n".toList, rfl⟩
  · exact ⟨"[Closing]\nThank you for listening to ".toList, "!".toList, rfl⟩

/-- C5: any input of length exactly 36 containing exactly four dash
characters is returned unchanged by `resolve_voice_id`, with zero
voice-list fetches. -/
theorem C5_uuid_fast_path (input : String) (w : World)
    (hlen : input.length = 36)
    (hdash : (input.toList.filter (fun c => c = '-')).length = 4) :
    resolve_voice_id input w = (.ok input, 0) := by
  have hshape : looksLikeUuid input = true := by
    simp only [looksLikeUuid, hlen]
    rw [show input.toList = input.data from rfl] at hdash
    simp [hdash]
  simp [resolve_voice_id, hshape]

/-- C5, witness at a concrete 36-character, four-dash identifier. -/
theorem C5_uuid_fast_path_witness :
    ("aaaaaaaa-aaaa-aaaa-aaaa-aaaaaaaaaaaa".length = 36 ∧
     ("aaaaaaaa-aaaa-aaaa-aaaa-aaaaaaaaaaaa".toList.filter
        (fun c => c = '-')).length = 4) ∧
    resolve_voice_id "aaaaaaaa-aaaa-aaaa-aaaa-aaaaaaaaaaaa"
        ⟨.ok [], fun _ _ => .httpError "down"⟩ =
      (.ok "aaaaaaaa-aaaa-aaaa-aaaa-aaaaaaaaaaaa", 0) :=
  ⟨⟨by decide, by decide⟩,
   C5_uuid_fast_path "aaaaaaaa-aaaa-aaaa-aaaa-aaaaaaaaaaaa"
     ⟨.ok [], fun _ _ => .httpError "down"⟩ (by decide) (by decide)⟩

/-- C6: for a non-identifier-shaped voice input, `resolve_voice_id`
performs exactly one voice-list fetch, and when the entry at position `i`
is the first whose name matches the input case-insensitively, the result
is that entry's voice identifier. -/
theorem C6_first_case_insensitive_match (input : String) (w : World)
    (voices : List Voice) (i : Nat) (hi : i < voices.length)
    (hshape : looksLikeUuid input = false)
    (hfetch : w.voicesFetch = .ok voices)
    (hmatch : nameMatches input (voices.get ⟨i, hi⟩) = true)
    (hfirst : ∀ j (hj : j < i),
      nameMatches input (voices.get ⟨j, Nat.lt_trans hj hi⟩) = false) :
    resolve_voice_id input w = (.ok (voices.get ⟨i, hi⟩).voice_id, 1) := by
  have hfind := find?_eq_get_of_first (nameMatches input) voices i hi hmatch hfirst
  simp [resolve_voice_id, hshape, hfetch, hfind]

/-- C6, witness: `"ARIA"` resolves against a three-voice list to the
identifier of the first case-insensitive match, in list order, with one
fetch. -/
theorem C6_first_case_insensitive_match_witness :
    resolve_voice_id "ARIA"
        ⟨.ok [⟨"Bob", "b1"⟩, ⟨"Aria", "a1"⟩, ⟨"aria", "a2"⟩],
         fun _ _ => .httpError "down"⟩ =
      (.ok "a1", 1) :=
  C6_first_case_insensitive_match "ARIA"
    ⟨.ok [⟨"Bob", "b1"⟩, ⟨"Aria", "a1"⟩, ⟨"aria", "a2"⟩],
     fun _ _ => .httpError "down"⟩
    [⟨"Bob", "b1"⟩, ⟨"Aria", "a1"⟩, ⟨"aria", "a2"⟩] 1 (by decide)
    (by decide) rfl (by decide) (by decide)

/-- C7: when no voice in the fetched list matches the (non-identifier-
shaped) input, `resolve_voice_id` fails with a voice-not-found error
carrying every available voice name, and `synthesize_tts` folds it into
the response pair: empty audio and the error text
`Voice lookup error: Voice <x27><name><x27> not found. Available: [...]`,
with one fetch and no synthesis POST. -/
theorem C7_voice_not_found (text input : String) (w : World)
    (voices : List Voice)
    (hshape : looksLikeUuid input = false)
    (hfetch : w.voicesFetch = .ok voices)
    (hnone : ∀ v ∈ voices, nameMatches input v = false) :
    resolve_voice_id input w =
      (.error (.voiceNotFound input (voices.map Voice.name)), 1) ∧
    synthesize_tts text input w =
      (([], "Voice lookup error: Voice \x27" ++ input ++
          "\x27 not found. Available: " ++ pyListRepr (voices.map Voice.name)),
       (1, 0)) := by
  have hfind : voices.find? (nameMatches input) = none :=
    List.find?_eq_none.mpr (fun v hv => by simp [hnone v hv])
  have hres : resolve_voice_id input w =
      (.error (.voiceNotFound input (voices.map Voice.name)), 1) := by
    simp [resolve_voice_id, hshape, hfetch, hfind]
  refine ⟨hres, ?_⟩
  simp only [synthesize_tts, hres, ResolveError.toMessage]
  rfl

/-- C7, witness: the concrete input `"Nonexistent Voice"` against a
two-voice list yields the not-found error naming both voices, and the
folded synthesis result. -/
theorem C7_voice_not_found_witness :
    resolve_voice_id "Nonexistent Voice"
        ⟨.ok [⟨"Rachel", "r1"⟩, ⟨"Domi", "d1"⟩], fun _ _ => .ok [1]⟩ =
      (.error (.voiceNotFound "Nonexistent Voice" ["Rachel", "Domi"]), 1) ∧
    synthesize_tts "a script" "Nonexistent Voice"
        ⟨.ok [⟨"Rachel", "r1"⟩, ⟨"Domi", "d1"⟩], fun _ _ => .ok [1]⟩ =
      (([], "Voice lookup error: Voice \x27Nonexistent Voice\x27 not found. " ++
          "Available: [\x27Rachel\x27, \x27Domi\x27]"),
       (1, 0)) :=
  C7_voice_not_found "a script" "Nonexistent Voice"
    ⟨.ok [⟨"Rachel", "r1"⟩, ⟨"Domi", "d1"⟩], fun _ _ => .ok [1]⟩
    [⟨"Rachel", "r1"⟩, ⟨"Domi", "d1"⟩] (by decide) rfl (by decide)

/-- C2, counterexample: a synthesis POST that succeeds with an empty body
makes `synthesize_tts` return empty audio bytes paired with an empty error
message, so success does not always pair an empty error with non-empty
audio as the claim states. -/
theorem C2_counterexample :
    (synthesize_tts "hello" "aaaaaaaa-aaaa-aaaa-aaaa-aaaaaaaaaaaa"
        ⟨.ok [], fun _ _ => .ok []⟩).1.1 = ([] : List Nat) ∧
    (synthesize_tts "hello" "aaaaaaaa-aaaa-aaaa-aaaa-aaaaaaaaaaaa"
        ⟨.ok [], fun _ _ => .ok []⟩).1.2 = "" := by
  constructor <;> rfl

/-- C2 (amended): `synthesize_tts` never raises.  A voice-resolution
failure yields empty audio paired with a non-empty message prefixed
`Voice lookup error: `, and no POST result is consulted; a transport/HTTP
failure of the POST yields empty audio paired with the exception's text;
a successful POST yields its response body — possibly empty — paired with
an empty error message. -/
theorem C2_synthesize_never_raises (text voice_input : String) (w : World) :
    (∀ e n, resolve_voice_id voice_input w = (.error e, n) →
      (synthesize_tts text voice_input w).1 =
        ([], "Voice lookup error: " ++ e.toMessage) ∧
      "Voice lookup error: " ++ e.toMessage ≠ "") ∧
    (∀ vid n msg, resolve_voice_id voice_input w = (.ok vid, n) →
      w.ttsPost vid text = .httpError msg →
      (synthesize_tts text voice_input w).1 = ([], msg)) ∧
    (∀ vid n body, resolve_voice_id voice_input w = (.ok vid, n) →
      w.ttsPost vid text = .ok body →
      (synthesize_tts text voice_input w).1 = (body, "")) := by
  refine ⟨?_, ?_, ?_⟩
  · intro e n h
    constructor
    · simp [synthesize_tts, h]
    · exact append_ne_empty_of_left_ne _ _ (by decide)
  · intro vid n msg h hpost
    simp [synthesize_tts, h, hpost]
  · intro vid n body h hpost
    simp [synthesize_tts, h, hpost]

/-- C2, witness: a failing voice-list fetch surfaces as the
`Voice lookup error: ` message with empty audio at a concrete input. -/
theorem C2_synthesize_never_raises_witness :
    (synthesize_tts "hi" "Aria" ⟨.httpError "boom", fun _ _ => .ok [1]⟩).1 =
      ([], "Voice lookup error: boom") ∧
    "Voice lookup error: " ++ (ResolveError.transport "boom").toMessage ≠ "" :=
  (C2_synthesize_never_raises "hi" "Aria"
      ⟨.httpError "boom", fun _ _ => .ok [1]⟩).1
    (.transport "boom") 1 rfl

/-- C10: with a success-status synthesis response whose body is empty,
`synthesize_tts` returns empty bytes paired with an empty error string,
and `generate_podcast` therefore reaches its catch-all branch and responds
with `tts_error = "Unknown TTS failure"`: the branch is reachable. -/
theorem C10_catch_all_reachable :
    (synthesize_tts "a script" "bbbbbbbb-bbbb-bbbb-bbbb-bbbbbbbbbbbb"
        ⟨.ok [], fun _ _ => .ok []⟩).1 = (([] : List Nat), "") ∧
    (generate_podcast "a topic" "bbbbbbbb-bbbb-bbbb-bbbb-bbbbbbbbbbbb"
        (.success "a script") ⟨.ok [], fun _ _ => .ok []⟩).1 =
      .ok ⟨"a script", "", "Unknown TTS failure"⟩ := by
  constructor <;> rfl

/-- C1: in `generate_podcast`, a rate-limit failure of script generation
is recovered by substituting `generate_template topic` and the pipeline
still invokes synthesis, while any other OpenAI service error aborts with
a 500 `HTTPException` embedding the message, with synthesis never invoked
and zero outbound synthesis-stage calls. -/
theorem C1_rate_limit_vs_service_error (topic voice_id msg : String) (w : World) :
    ((generate_podcast topic voice_id .rateLimited w).2.synthCalled = true ∧
     ∃ resp, (generate_podcast topic voice_id .rateLimited w).1 = .ok resp ∧
       resp.script = generate_template topic) ∧
    generate_podcast topic voice_id (.serviceError msg) w =
      (.error ⟨500, "OpenAI error: " ++ msg⟩, ⟨0, 0, false⟩) := by
  refine ⟨?_, rfl⟩
  show ((generate_podcast_rest (generate_template topic) voice_id w).2.synthCalled = true ∧ _)
  match h : synthesize_tts (generate_template topic) voice_id w with
  | ((audio_bytes, tts_error0), (fetches, posts)) =>
    refine ⟨?_, ?_⟩
    · show (generate_podcast_rest (generate_template topic) voice_id w).2.synthCalled = true
      simp [generate_podcast_rest, h]
    · refine ⟨⟨generate_template topic,
        encodeAudio audio_bytes,
        if audio_bytes = [] ∧ tts_error0 = "" then "Unknown TTS failure"
        else tts_error0⟩, ?_, rfl⟩
      show (generate_podcast_rest (generate_template topic) voice_id w).1 = _
      simp [generate_podcast_rest, h]

/-- C3: in every `PodcastResponse` returned by `generate_podcast`,
non-empty `audio_base64` implies `tts_error` is empty, non-empty
`tts_error` implies `audio_base64` is empty, a synthesis result of empty
bytes with an empty error is replaced by
`tts_error = "Unknown TTS failure"`, and the final response never has both
fields empty. -/
theorem C3_audio_error_exclusive (topic voice_id : String) (oai : OpenAIResult)
    (w : World) (resp : PodcastResponse) (log : CallLog)
    (h : generate_podcast topic voice_id oai w = (.ok resp, log)) :
    (resp.audio_base64 ≠ "" → resp.tts_error = "") ∧
    (resp.tts_error ≠ "" → resp.audio_base64 = "") ∧
    (resp.audio_base64 = "" → resp.tts_error ≠ "") ∧
    ((synthesize_tts resp.script voice_id w).1 = ([], "") →
      resp.tts_error = "Unknown TTS failure") := by
  cases oai with
  | success content =>
    have hrest := generate_podcast_rest_ok (pyStrip content) voice_id w resp log h
    exact ⟨hrest.1, hrest.2.1, hrest.2.2.1, hrest.2.2.2.1 ▸ hrest.2.2.2.2⟩
  | rateLimited =>
    have hrest := generate_podcast_rest_ok (generate_template topic) voice_id w
      resp log h
    exact ⟨hrest.1, hrest.2.1, hrest.2.2.1, hrest.2.2.2.1 ▸ hrest.2.2.2.2⟩
  | serviceError msg =>
    exact absurd (congrArg (fun q => q.1) h)
      (by simp [generate_podcast, generate_with_openai])

/-- C3, witness: a fully successful concrete run ends with non-empty
audio, an empty error, and the invariants hold at that response. -/
theorem C3_audio_error_exclusive_witness :
    ((⟨"s", "AQI=", ""⟩ : PodcastResponse).audio_base64 ≠ "" →
      (⟨"s", "AQI=", ""⟩ : PodcastResponse).tts_error = "") ∧
    ((⟨"s", "AQI=", ""⟩ : PodcastResponse).tts_error ≠ "" →
      (⟨"s", "AQI=", ""⟩ : PodcastResponse).audio_base64 = "") ∧
    ((⟨"s", "AQI=", ""⟩ : PodcastResponse).audio_base64 = "" →
      (⟨"s", "AQI=", ""⟩ : PodcastResponse).tts_error ≠ "") ∧
    ((synthesize_tts (⟨"s", "AQI=", ""⟩ : PodcastResponse).script "Aria"
        ⟨.ok [⟨"Aria", "a1"⟩], fun _ _ => .ok [1, 2]⟩).1 = ([], "") →
      (⟨"s", "AQI=", ""⟩ : PodcastResponse).tts_error = "Unknown TTS failure") :=
  C3_audio_error_exclusive "t" "Aria" (.success "s")
    ⟨.ok [⟨"Aria", "a1"⟩], fun _ _ => .ok [1, 2]⟩
    ⟨"s", "AQI=", ""⟩ ⟨1, 1, true⟩ rfl

/-- C9, counterexample: when the text-generation service succeeds with
whitespace-only content, the non-fatal response carries an empty script,
so the script is not "never empty" on non-fatal paths. -/
theorem C9_counterexample :
    (generate_podcast "a topic" "Aria" (.success " ")
        ⟨.httpError "x", fun _ _ => .ok []⟩).1 =
      .ok ⟨"", "", "Voice lookup error: x"⟩ := by
  rfl

/-- C9 (amended): on every non-fatal path, the response script is exactly
one of the stripped text-generation result (when generation succeeds) or
the fallback template (when rate-limited); the fallback template is never
empty, so the script can be empty only when the service's own stripped
output is empty. -/
theorem C9_script_source (topic voice_id content : String) (w : World) :
    (∀ resp log,
      generate_podcast topic voice_id (.success content) w = (.ok resp, log) →
      resp.script = pyStrip content) ∧
    (∀ resp log,
      generate_podcast topic voice_id .rateLimited w = (.ok resp, log) →
      resp.script = generate_template topic ∧ resp.script ≠ "") := by
  constructor
  · intro resp log h
    exact (generate_podcast_rest_ok (pyStrip content) voice_id w resp log h).2.2.2.1
  · intro resp log h
    have hs :=
      (generate_podcast_rest_ok (generate_template topic) voice_id w resp log h).2.2.2.1
    refine ⟨hs, ?_⟩
    rw [hs]
    exact append_ne_empty_of_right_ne _ _ (by decide)

/-- C9, witness: concrete runs for both the success path and the
rate-limited path. -/
theorem C9_script_source_witness :
    (⟨"s", "", "Voice lookup error: x"⟩ : PodcastResponse).script = pyStrip "s" ∧
    ((⟨generate_template "t", "", "Voice lookup error: x"⟩ : PodcastResponse).script =
        generate_template "t" ∧
     (⟨generate_template "t", "", "Voice lookup error: x"⟩ : PodcastResponse).script ≠
        "") :=
  ⟨(C9_script_source "t" "Aria" "s" ⟨.httpError "x", fun _ _ => .ok []⟩).1
     ⟨"s", "", "Voice lookup error: x"⟩ ⟨1, 0, true⟩ rfl,
   (C9_script_source "t" "Aria" "s" ⟨.httpError "x", fun _ _ => .ok []⟩).2
     ⟨generate_template "t", "", "Voice lookup error: x"⟩ ⟨1, 0, true⟩ rfl⟩

lemma b64CharVal_b64CharOf : ∀ n < 64, b64CharVal (b64CharOf n) = some n := by
  decide

lemma b64CharOf_ne_pad : ∀ n < 64, b64CharOf n ≠ '=' := by
  decide

lemma b64_roundtrip_aux (bs : List Nat) :
    b64DecodeList (b64EncodeList bs) = some (bs.map (fun b => b % 256)) := by
  induction bs using b64EncodeList.induct with
  | case1 => rfl
  | case2 a =>
    have h1 := b64CharVal_b64CharOf (a % 256 / 4) (by omega)
    have h2 := b64CharVal_b64CharOf (a % 256 % 4 * 16) (by omega)
    simp only [b64EncodeList, b64DecodeList, h1, h2, List.map_cons, List.map_nil]
    simp only [reduceIte, and_self, if_true, Option.some.injEq, List.cons.injEq,
      and_true]
    omega
  | case3 a b =>
    have h1 := b64CharVal_b64CharOf (a % 256 / 4) (by omega)
    have h2 := b64CharVal_b64CharOf (a % 256 % 4 * 16 + b % 256 / 16) (by omega)
    have h3 := b64CharVal_b64CharOf (b % 256 % 16 * 4) (by omega)
    have hne3 := b64CharOf_ne_pad (b % 256 % 16 * 4) (by omega)
    simp only [b64EncodeList, b64DecodeList, h1, h2, h3, List.map_cons,
      List.map_nil]
    simp only [hne3, reduceIte, if_false, if_true, Option.some.injEq,
      List.cons.injEq, and_true]
    constructor <;> omega
  | case4 a b c rest ih =>
    have h1 := b64CharVal_b64CharOf (a % 256 / 4) (by omega)
    have h2 := b64CharVal_b64CharOf (a % 256 % 4 * 16 + b % 256 / 16) (by omega)
    have h3 := b64CharVal_b64CharOf (b % 256 % 16 * 4 + c % 256 / 64) (by omega)
    have h4 := b64CharVal_b64CharOf (c % 256 % 64) (by omega)
    have hne3 := b64CharOf_ne_pad (b % 256 % 16 * 4 + c % 256 / 64) (by omega)
    have hne4 := b64CharOf_ne_pad (c % 256 % 64) (by omega)
    simp only [b64EncodeList, b64DecodeList, h1, h2, h3, h4, ih, List.map_cons]
    simp only [hne3, hne4, reduceIte, if_false, Option.some.injEq,
      List.cons.injEq]
    refine ⟨by omega, by omega, by omega, trivial⟩

/-- C8: for every byte sequence (entries below 256), base64-encoding the
bytes and decoding the resulting text yields the original bytes exactly;
empty bytes are encoded by the orchestrator to the empty string, which
coincides with the base64 encoding of the zero-length byte sequence; and
for non-empty bytes the orchestrator's conditional encoding agrees with
plain base64 encoding. -/
theorem C8_base64_roundtrip (bs : List Nat) (h : ∀ b ∈ bs, b < 256) :
    b64Decode (b64Encode bs) = some bs ∧
    b64Encode [] = "" ∧
    encodeAudio [] = "" ∧
    (bs ≠ [] → encodeAudio bs = b64Encode bs) := by
  refine ⟨?_, rfl, rfl, ?_⟩
  · have haux := b64_roundtrip_aux bs
    have hmap : bs.map (fun b => b % 256) = bs := by
      have hcongr : bs.map (fun b => b % 256) = bs.map id :=
        List.map_congr_left (fun b hb => Nat.mod_eq_of_lt (h b hb))
      rw [hcongr, List.map_id]
    show b64DecodeList (b64EncodeList bs) = some bs
    rw [haux, hmap]
  · intro hne
    simp [encodeAudio, hne]

/-- C8, witness: round trip at a concrete five-byte sequence. -/
theorem C8_base64_roundtrip_witness :
    (∀ b ∈ [77, 97, 110, 0, 255], b < 256) ∧
    (b64Decode (b64Encode [77, 97, 110, 0, 255]) = some [77, 97, 110, 0, 255] ∧
     b64Encode [] = "" ∧
     encodeAudio [] = "" ∧
     (([77, 97, 110, 0, 255] : List Nat) ≠ [] →
       encodeAudio [77, 97, 110, 0, 255] = b64Encode [77, 97, 110, 0, 255])) :=
  ⟨by decide, C8_base64_roundtrip [77, 97, 110, 0, 255] (by decide)⟩

end Podcast
